import Mathlib

/-!
Shallow embedding of the transcript microservice
(`src/MAF.InsightStreamer.TranscriptService/app.py`).

The service wraps an external transcript provider. We model the provider as
an oracle giving the outcome of each outbound provider interaction; the parts
of `app.py` that the claims are about — error classification, the structured
error responses, the retry helper `get_transcript_with_retry`, the two route
handlers `get_transcript` and `list_transcripts`, and the `languages` query
parsing — are translated function by function below.
-/

namespace TranscriptService

/-- JSON values, enough to express the response bodies `app.py` builds with
`jsonify`. A JSON object is a list of key/value pairs in insertion order,
so that presence vs. absence of a key is observable (Python dicts preserve
insertion order). -/
inductive JValue where
  | str (s : String)
  | num (q : Rat)
  | nat (n : Nat)
  | bool (b : Bool)
  | null
  | arr (xs : List JValue)
  | obj (fields : List (String × JValue))

/-- One transcript segment as produced by the provider and passed through
unchanged by the route (`text`, `start`, `duration`; app.py line 307).
Times are modelled as rationals. -/
structure Segment where
  text : String
  start : Rat
  duration : Rat
deriving DecidableEq, Repr

/-- One available transcript track, as serialized by `list_transcripts`
(app.py lines 456-462). -/
structure Track where
  language : String
  language_code : String
  is_generated : Bool
  is_translatable : Bool
deriving DecidableEq, Repr

/-- The Python exceptions that the `except` clauses of `app.py` dispatch on,
each carrying `str(e)`. `otherExc` stands for any exception that is not an
instance of one of the named classes (caught by the final
`except Exception`). -/
inductive PyExc where
  | TranscriptsDisabled (msg : String)
  | NoTranscriptFound (msg : String)
  | NoTranscriptAvailable (msg : String)
  | VideoUnavailable (msg : String)
  | YouTubeRequestFailed (msg : String)
  | Timeout (msg : String)
  | ConnectionError (msg : String)
  | otherExc (msg : String)
deriving DecidableEq, Repr

/-- `str(exception)`. -/
def PyExc.message : PyExc → String
  | .TranscriptsDisabled m => m
  | .NoTranscriptFound m => m
  | .NoTranscriptAvailable m => m
  | .VideoUnavailable m => m
  | .YouTubeRequestFailed m => m
  | .Timeout m => m
  | .ConnectionError m => m
  | .otherExc m => m

/-- `pat` is a prefix of `s` (on character lists). -/
def charsPrefix : List Char → List Char → Bool
  | [], _ => true
  | _ :: _, [] => false
  | a :: pat, b :: s => a = b && charsPrefix pat s

/-- `pat` occurs as a contiguous run inside `s` (on character lists). -/
def charsContain (pat : List Char) : List Char → Bool
  | [] => charsPrefix pat []
  | c :: rest => charsPrefix pat (c :: rest) || charsContain pat rest

/-- Python's `pat in s` on strings: contiguous substring test. -/
def containsSubstr (s pat : String) : Bool :=
  charsContain pat.toList s.toList

/-- Python's `s.lower()` (ASCII case folding, which covers every message the
source matches against). -/
def pyLower (s : String) : String :=
  String.mk (s.toList.map Char.toLower)

/-- app.py lines 124-131: the rate-limit indicator substrings. -/
def rate_limit_indicators : List String :=
  ["too many requests", "rate limit", "quota exceeded", "429",
   "try again later", "temporarily unavailable"]

/-- app.py lines 113-132, `is_rate_limit_error`: lowercase `str(e)` and test
each indicator for containment. -/
def is_rate_limit_error (e : PyExc) : Bool :=
  let error_message := pyLower e.message
  rate_limit_indicators.any (fun indicator => containsSubstr error_message indicator)

/-- app.py lines 148-157: the transient-error indicator substrings. -/
def transient_indicators : List String :=
  ["timeout", "connection", "network", "temporary", "service unavailable",
   "503", "502", "504"]

/-- app.py lines 134-158, `is_transient_error`: `isinstance(e, (Timeout,
ConnectionError))` short-circuits to true, otherwise lowercase `str(e)` and
test each indicator for containment. -/
def is_transient_error (e : PyExc) : Bool :=
  match e with
  | .Timeout _ => true
  | .ConnectionError _ => true
  | _ =>
    let error_message := pyLower e.message
    transient_indicators.any (fun indicator => containsSubstr error_message indicator)

/-- app.py lines 84-111, `create_error_response`: builds the error body with
keys `error`, `error_code`, `video_id` always present, and `is_retryable` /
`retry_after` added only when the corresponding argument is not `None`.
Returns the pair (response dict, status code). -/
def create_error_response (error_message error_code : String) (status_code : Nat)
    (video_id : Option String) (is_retryable : Option Bool) (retry_after : Option Nat) :
    List (String × JValue) × Nat :=
  let response : List (String × JValue) :=
    [("error", .str error_message),
     ("error_code", .str error_code),
     ("video_id", match video_id with | some v => .str v | none => .null)]
  let response := response ++
    (match is_retryable with | some b => [("is_retryable", JValue.bool b)] | none => [])
  let response := response ++
    (match retry_after with | some n => [("retry_after", JValue.nat n)] | none => [])
  (response, status_code)

/-- An HTTP response produced by `jsonify(response), status`. -/
structure HttpResponse where
  status : Nat
  body : List (String × JValue)

/-- `jsonify(response), status` on the result of `create_error_response`. -/
def toHttpResponse (p : List (String × JValue) × Nat) : HttpResponse :=
  { status := p.2, body := p.1 }

/-- Python's `s.split(sep)` for a one-character separator, on the character
list: split at every occurrence of `sep`; the empty list yields one empty
group (`"".split(',') == ['']`). -/
def splitOnChar (sep : Char) : List Char → List (List Char)
  | [] => [[]]
  | c :: rest =>
    if c = sep then [] :: splitOnChar sep rest
    else
      match splitOnChar sep rest with
      | [] => [[c]]
      | g :: gs => (c :: g) :: gs

/-- Python's `s.split(sep)` for a one-character separator. -/
def pySplit (s : String) (sep : Char) : List String :=
  (splitOnChar sep s.toList).map (fun cs => String.mk cs)

/-- app.py line 311: `request.args.get('languages', 'en').split(',')`.
The argument is the raw query-parameter value when the parameter is present
in the query string, `none` when it is absent. -/
def parseLanguages (queryValue : Option String) : List String :=
  pySplit (queryValue.getD "en") ','

/-- Serialization of one segment inside the route's JSON body. -/
def segToJValue (s : Segment) : JValue :=
  .obj [("text", .str s.text), ("start", .num s.start), ("duration", .num s.duration)]

/-- Serialization of one track inside the list route's JSON body
(app.py lines 457-462). -/
def trackToJValue (t : Track) : JValue :=
  .obj [("language", .str t.language),
        ("language_code", .str t.language_code),
        ("is_generated", .bool t.is_generated),
        ("is_translatable", .bool t.is_translatable)]

/-- The `except` chain of the route `get_transcript` (app.py lines 331-441),
applied to the exception raised by the fetch. Clauses are tried in source
order; `otherExc` reaches the final `except Exception` where
`is_transient_error` decides between TRANSIENT_ERROR and INTERNAL_ERROR. -/
def get_transcript_handle_error (video_id : String) (e : PyExc) : HttpResponse :=
  match e with
  | .TranscriptsDisabled _ =>
    toHttpResponse (create_error_response
      "Transcripts are disabled for this video" "TRANSCRIPTS_DISABLED" 404
      (some video_id) (some false) none)
  | .NoTranscriptFound _ =>
    toHttpResponse (create_error_response
      "No transcript available in requested languages" "NO_TRANSCRIPT_FOUND" 404
      (some video_id) (some false) none)
  | .NoTranscriptAvailable _ =>
    toHttpResponse (create_error_response
      "No transcript available for this video" "NO_TRANSCRIPT_AVAILABLE" 404
      (some video_id) (some false) none)
  | .VideoUnavailable _ =>
    toHttpResponse (create_error_response
      "Video is unavailable or does not exist" "VIDEO_UNAVAILABLE" 404
      (some video_id) (some false) none)
  | .YouTubeRequestFailed _ =>
    if is_rate_limit_error e then
      toHttpResponse (create_error_response
        "YouTube rate limit exceeded. Please try again later." "RATE_LIMIT_EXCEEDED" 429
        (some video_id) (some false) (some 60))
    else
      toHttpResponse (create_error_response
        "YouTube API temporarily unavailable" "YOUTUBE_API_ERROR" 503
        (some video_id) (some true) (some 30))
  | .Timeout _ =>
    toHttpResponse (create_error_response
      "Network timeout or connection error" "NETWORK_ERROR" 503
      (some video_id) (some true) (some 15))
  | .ConnectionError _ =>
    toHttpResponse (create_error_response
      "Network timeout or connection error" "NETWORK_ERROR" 503
      (some video_id) (some true) (some 15))
  | .otherExc _ =>
    if is_transient_error e then
      toHttpResponse (create_error_response
        "Service temporarily unavailable" "TRANSIENT_ERROR" 503
        (some video_id) (some true) (some 30))
    else
      toHttpResponse (create_error_response
        "Internal server error" "INTERNAL_ERROR" 500
        (some video_id) (some true) none)

/-- Observable result of one execution of the `get_transcript` route:
the HTTP response, how many provider fetch interactions were made,
the total time slept by the handler, and the language list computed from the
query string. -/
structure RouteResult where
  response : HttpResponse
  provider_calls : Nat
  total_sleep : Rat
  languages_used : List String

/-- app.py lines 298-441, route `GET /transcript/<video_id>`.

`provider langs n` is the outcome of the `n`-th provider fetch interaction
(the `list_transcripts -> find_transcript -> fetch` sequence of lines
317-319) when called with language list `langs`: either the segment list or
the exception it raises.

The route parses `languages` (line 311), performs exactly ONE provider
interaction inside its `try` (lines 316-323; the inner `except` re-raises,
and the retry helper `get_transcript_with_retry` is never invoked by this
route), never sleeps, and on success returns the 200 body of lines 325-329;
on an exception it runs the `except` chain. -/
def get_transcript (video_id : String) (queryLanguages : Option String)
    (provider : List String → Nat → Except PyExc (List Segment)) : RouteResult :=
  let languages := parseLanguages queryLanguages
  match provider languages 0 with
  | .ok transcript =>
    { response :=
        { status := 200,
          body := [("video_id", .str video_id),
                   ("transcript", .arr (transcript.map segToJValue)),
                   ("segment_count", .nat transcript.length)] },
      provider_calls := 1, total_sleep := 0, languages_used := languages }
  | .error e =>
    { response := get_transcript_handle_error video_id e,
      provider_calls := 1, total_sleep := 0, languages_used := languages }

/-- app.py line 289: `isinstance(e, (TranscriptsDisabled, NoTranscriptFound,
VideoUnavailable))` — the errors `get_transcript_with_retry` refuses to
retry. Note `NoTranscriptAvailable` is NOT in this tuple. -/
def nonRetryable (e : PyExc) : Bool :=
  match e with
  | .TranscriptsDisabled _ => true
  | .NoTranscriptFound _ => true
  | .VideoUnavailable _ => true
  | _ => false

/-- Observable result of `get_transcript_with_retry`: final outcome, number
of provider attempts made, and total time slept in backoff. -/
structure RetryResult where
  outcome : Except PyExc (List Segment)
  attempts : Nat
  total_sleep : Rat
deriving Repr

/-- The body of the `for attempt in range(max_retries)` loop of
`get_transcript_with_retry` (app.py lines 260-291), starting at loop index
`attempt` with `fuel` iterations remaining (`fuel = max_retries - attempt`)
and `slept` seconds of backoff accumulated so far.

Per iteration: if `attempt > 0`, sleep `2 ** attempt + random.uniform(0, 1)`
(the jitter draw for that attempt is `jitter attempt`); call the provider;
on success return; on exception re-raise when this is the last attempt
(`attempt == max_retries - 1`) or when the exception is non-retryable,
otherwise continue with the next iteration. Falling off the loop (only
possible when `max_retries = 0`) returns Python's implicit `None`,
modelled as `none`. -/
def retry_go (provider : Nat → Except PyExc (List Segment)) (jitter : Nat → Rat)
    (max_retries : Nat) : Nat → Rat → Nat → Option RetryResult
  | _, _, 0 => none
  | attempt, sleptSoFar, fuel + 1 =>
    let slept := if attempt > 0 then sleptSoFar + (2 ^ attempt + jitter attempt)
                 else sleptSoFar
    match provider attempt with
    | .ok transcript => some ⟨.ok transcript, attempt + 1, slept⟩
    | .error e =>
      if attempt = max_retries - 1 then some ⟨.error e, attempt + 1, slept⟩
      else if nonRetryable e then some ⟨.error e, attempt + 1, slept⟩
      else retry_go provider jitter max_retries (attempt + 1) slept fuel

/-- app.py lines 248-291, `get_transcript_with_retry(video_id, languages,
max_retries=3)`. `provider n` is the outcome of the `n`-th call to
`YouTubeTranscriptApi.get_transcript`; `jitter n` is the value
`random.uniform(0, 1)` drawn before attempt `n`. This helper is defined in
`app.py` but not called by any route. -/
def get_transcript_with_retry (provider : Nat → Except PyExc (List Segment))
    (jitter : Nat → Rat) (max_retries : Nat) : Option RetryResult :=
  retry_go provider jitter max_retries 0 0 max_retries

/-- Outcome of a request to the list route: either a JSON response produced
by a handler, or an exception escaping the handler chain entirely (in which
case Flask serves its default error page, not a structured JSON body). -/
inductive ListRouteOutcome where
  | jsonResponse (r : HttpResponse)
  | unhandled (err : String)

/-- app.py lines 443-589, route `GET /transcript/list/<video_id>`.

`outcome` is the result of `YouTubeTranscriptApi.list_transcripts` plus
iteration (lines 453-462): the track list or the exception raised.

The `except` clauses are matched in source order. Python evaluates each
clause's class expression only when an exception is being matched; the fifth
clause (line 514) names `VideoRegionBlocked`, which is neither imported nor
defined anywhere in `app.py`, so for any exception that is not an instance
of the first four classes, evaluating that clause raises `NameError`, which
propagates out of the handler chain — the clauses from line 514 down
(rate-limit, network, transient, internal) are unreachable. -/
def list_transcripts (video_id : String) (outcome : Except PyExc (List Track)) :
    ListRouteOutcome :=
  match outcome with
  | .ok transcript_list =>
    .jsonResponse
      { status := 200,
        body := [("video_id", .str video_id),
                 ("available_transcripts", .arr (transcript_list.map trackToJValue))] }
  | .error e =>
    match e with
    | .TranscriptsDisabled _ =>
      .jsonResponse (toHttpResponse (create_error_response
        "Transcripts are disabled for this video" "TRANSCRIPTS_DISABLED" 404
        (some video_id) (some false) none))
    | .NoTranscriptFound _ =>
      .jsonResponse (toHttpResponse (create_error_response
        "No transcript available for this video" "NO_TRANSCRIPT_FOUND" 404
        (some video_id) (some false) none))
    | .NoTranscriptAvailable _ =>
      .jsonResponse (toHttpResponse (create_error_response
        "No transcript available for this video" "NO_TRANSCRIPT_AVAILABLE" 404
        (some video_id) (some false) none))
    | .VideoUnavailable _ =>
      .jsonResponse (toHttpResponse (create_error_response
        "Video is unavailable or does not exist" "VIDEO_UNAVAILABLE" 404
        (some video_id) (some false) none))
    | _ => .unhandled "NameError: name 'VideoRegionBlocked' is not defined"

/-- Statement helper: the exception kinds the claims call a "transient
failure" — a network `Timeout` or `ConnectionError`, or an otherwise
unclassified exception whose message matches the transient indicators. -/
def TransientKind (e : PyExc) : Prop :=
  (∃ m, e = .Timeout m) ∨ (∃ m, e = .ConnectionError m) ∨
  (∃ m, e = .otherExc m ∧ is_transient_error (.otherExc m) = true)

/-- Statement helper: the error code the service assigns to each
non-retryable business failure (unused fallback `""` for other kinds). -/
def business_error_code : PyExc → String
  | .TranscriptsDisabled _ => "TRANSCRIPTS_DISABLED"
  | .NoTranscriptFound _ => "NO_TRANSCRIPT_FOUND"
  | .NoTranscriptAvailable _ => "NO_TRANSCRIPT_AVAILABLE"
  | .VideoUnavailable _ => "VIDEO_UNAVAILABLE"
  | _ => ""

/-- The three fixed segments used by the spec's round-trip property. -/
def demoSegments : List Segment :=
  [{ text := "a", start := 0, duration := 1 },
   { text := "b", start := 1, duration := 1 },
   { text := "c", start := 2, duration := 1 }]

end TranscriptService

namespace TranscriptService

/-- C1, counterexample to the claim as stated: with a provider that fails
with a transient `Timeout` on every attempt, the route `GET
/transcript/{video_id}` makes exactly 1 provider attempt, not 3 — the route
never invokes the retry helper. -/
theorem C1_route_makes_one_attempt_not_three :
    (get_transcript "v1" none
        (fun _ _ => Except.error (.Timeout "timed out"))).provider_calls = 1 ∧
    (get_transcript "v1" none
        (fun _ _ => Except.error (.Timeout "timed out"))).provider_calls ≠ 3 :=
  ⟨rfl, by decide⟩

/-- C1 (amended): for a transient failure that persists across attempts, the
route serving `GET /transcript/{video_id}` makes exactly ONE provider
attempt (it does not call `get_transcript_with_retry`) and responds 503 with
`is_retryable = true`; the helper `get_transcript_with_retry`, which is
defined in the source but not invoked by the route, makes exactly 3 attempts
(the default `max_retries`) before surfacing the same error. -/
theorem C1_transient_failure_one_attempt_503 (vid : String) (q : Option String)
    (e : PyExc) (provider : List String → Nat → Except PyExc (List Segment))
    (htrans : TransientKind e)
    (hprov : ∀ langs n, provider langs n = Except.error e) :
    (get_transcript vid q provider).provider_calls = 1 ∧
    (get_transcript vid q provider).response.status = 503 ∧
    (get_transcript vid q provider).response.body.lookup "is_retryable" =
      some (JValue.bool true) ∧
    ∀ jitter : Nat → Rat, ∃ r : RetryResult,
      get_transcript_with_retry (fun _ => Except.error e) jitter 3 = some r ∧
      r.attempts = 3 ∧ r.outcome = Except.error e := by
  have hretry : ∀ jitter : Nat → Rat, ∃ r : RetryResult,
      get_transcript_with_retry (fun _ => Except.error e) jitter 3 = some r ∧
      r.attempts = 3 ∧ r.outcome = Except.error e := by
    intro jitter
    obtain ⟨m, rfl⟩ | ⟨m, rfl⟩ | ⟨m, rfl, _⟩ := htrans <;>
      exact ⟨_, rfl, rfl, rfl⟩
  obtain ⟨m, rfl⟩ | ⟨m, rfl⟩ | ⟨m, rfl, htr⟩ := htrans
  · refine ⟨?_, ?_, ?_, hretry⟩ <;>
      simp [get_transcript, hprov, get_transcript_handle_error, toHttpResponse,
        create_error_response, List.lookup]
  · refine ⟨?_, ?_, ?_, hretry⟩ <;>
      simp [get_transcript, hprov, get_transcript_handle_error, toHttpResponse,
        create_error_response, List.lookup]
  · refine ⟨?_, ?_, ?_, hretry⟩ <;>
      simp [get_transcript, hprov, get_transcript_handle_error, htr,
        toHttpResponse, create_error_response, List.lookup]

/-- C1 witness: the amended theorem applied at a concrete persistent
`Timeout` failure. -/
theorem C1_transient_failure_one_attempt_503_witness :
    (get_transcript "v1" none
        (fun _ _ => Except.error (.Timeout "timed out"))).provider_calls = 1 ∧
    (get_transcript "v1" none
        (fun _ _ => Except.error (.Timeout "timed out"))).response.status = 503 ∧
    (get_transcript "v1" none
        (fun _ _ => Except.error (.Timeout "timed out"))).response.body.lookup
      "is_retryable" = some (JValue.bool true) ∧
    ∀ jitter : Nat → Rat, ∃ r : RetryResult,
      get_transcript_with_retry (fun _ => Except.error (.Timeout "timed out"))
        jitter 3 = some r ∧
      r.attempts = 3 ∧ r.outcome = Except.error (.Timeout "timed out") :=
  C1_transient_failure_one_attempt_503 "v1" none (.Timeout "timed out") _
    (Or.inl ⟨"timed out", rfl⟩) (fun _ _ => rfl)

/-- C2: with any exception that is not an instance of the four classes named
by the first four `except` clauses (here: a `Timeout`), the list route's
handler chain evaluates the undefined name `VideoRegionBlocked`, raising a
`NameError` that escapes the chain — the caller gets Flask's default error
page, not a structured JSON `ErrorResponse`. -/
theorem C2_list_route_leaks_nameerror :
    list_transcripts "v1"
        (Except.error (.Timeout "HTTPSConnectionPool: Read timed out")) =
      .unhandled "NameError: name 'VideoRegionBlocked' is not defined" ∧
    ∀ r : HttpResponse,
      list_transcripts "v1"
          (Except.error (.Timeout "HTTPSConnectionPool: Read timed out")) ≠
        .jsonResponse r :=
  ⟨rfl, fun _ h => ListRouteOutcome.noConfusion h⟩

/-- C3: each of the four non-retryable business failures raised by the
provider makes the route answer 404 with the matching `error_code` and
`is_retryable = false`, after exactly one provider attempt and with no
backoff sleep. -/
theorem C3_business_error_404_no_retry (vid msg : String) (q : Option String)
    (provider : List String → Nat → Except PyExc (List Segment)) (e : PyExc)
    (hcase : e = .TranscriptsDisabled msg ∨ e = .NoTranscriptFound msg ∨
             e = .NoTranscriptAvailable msg ∨ e = .VideoUnavailable msg)
    (hprov : provider (parseLanguages q) 0 = Except.error e) :
    (get_transcript vid q provider).provider_calls = 1 ∧
    (get_transcript vid q provider).total_sleep = 0 ∧
    (get_transcript vid q provider).response.status = 404 ∧
    (get_transcript vid q provider).response.body.lookup "error_code" =
      some (JValue.str (business_error_code e)) ∧
    (get_transcript vid q provider).response.body.lookup "is_retryable" =
      some (JValue.bool false) := by
  obtain rfl | rfl | rfl | rfl := hcase <;>
    refine ⟨?_, ?_, ?_, ?_, ?_⟩ <;>
      simp [get_transcript, hprov, get_transcript_handle_error, toHttpResponse,
        create_error_response, business_error_code, List.lookup]

/-- C3 witness: the theorem applied to a provider raising
`TranscriptsDisabled` on the first attempt. -/
theorem C3_business_error_404_no_retry_witness :
    (get_transcript "v1" none
        (fun _ _ => Except.error (.TranscriptsDisabled "disabled"))).provider_calls = 1 ∧
    (get_transcript "v1" none
        (fun _ _ => Except.error (.TranscriptsDisabled "disabled"))).total_sleep = 0 ∧
    (get_transcript "v1" none
        (fun _ _ => Except.error (.TranscriptsDisabled "disabled"))).response.status = 404 ∧
    (get_transcript "v1" none
        (fun _ _ => Except.error (.TranscriptsDisabled "disabled"))).response.body.lookup
      "error_code" =
      some (JValue.str (business_error_code (.TranscriptsDisabled "disabled"))) ∧
    (get_transcript "v1" none
        (fun _ _ => Except.error (.TranscriptsDisabled "disabled"))).response.body.lookup
      "is_retryable" = some (JValue.bool false) :=
  C3_business_error_404_no_retry "v1" "disabled" none _ _ (Or.inl rfl) rfl

end TranscriptService

namespace TranscriptService

/-- C4: a provider-request failure (`YouTubeRequestFailed`) whose lowercased
message contains one of the rate-limit indicator substrings makes the route
answer 429 with `error_code = RATE_LIMIT_EXCEEDED`, `is_retryable = false`
and `retry_after = 60`. -/
theorem C4_rate_limited_429 (vid msg : String) (q : Option String)
    (provider : List String → Nat → Except PyExc (List Segment))
    (hmatch : ∃ indicator ∈ rate_limit_indicators,
        containsSubstr (pyLower msg) indicator = true)
    (hprov : provider (parseLanguages q) 0 =
        Except.error (.YouTubeRequestFailed msg)) :
    (get_transcript vid q provider).response.status = 429 ∧
    (get_transcript vid q provider).response.body.lookup "error_code" =
      some (JValue.str "RATE_LIMIT_EXCEEDED") ∧
    (get_transcript vid q provider).response.body.lookup "is_retryable" =
      some (JValue.bool false) ∧
    (get_transcript vid q provider).response.body.lookup "retry_after" =
      some (JValue.nat 60) := by
  have hrl : is_rate_limit_error (.YouTubeRequestFailed msg) = true := by
    simpa [is_rate_limit_error, PyExc.message, List.any_eq_true] using hmatch
  refine ⟨?_, ?_, ?_, ?_⟩ <;>
    simp [get_transcript, hprov, get_transcript_handle_error, hrl,
      toHttpResponse, create_error_response, List.lookup]

/-- C4 witness: the theorem applied to a provider failing with
"HTTP Error 429: Too Many Requests". -/
theorem C4_rate_limited_429_witness :
    (get_transcript "v1" none (fun _ _ =>
        Except.error (.YouTubeRequestFailed
          "HTTP Error 429: Too Many Requests"))).response.status = 429 ∧
    (get_transcript "v1" none (fun _ _ =>
        Except.error (.YouTubeRequestFailed
          "HTTP Error 429: Too Many Requests"))).response.body.lookup "error_code" =
      some (JValue.str "RATE_LIMIT_EXCEEDED") ∧
    (get_transcript "v1" none (fun _ _ =>
        Except.error (.YouTubeRequestFailed
          "HTTP Error 429: Too Many Requests"))).response.body.lookup "is_retryable" =
      some (JValue.bool false) ∧
    (get_transcript "v1" none (fun _ _ =>
        Except.error (.YouTubeRequestFailed
          "HTTP Error 429: Too Many Requests"))).response.body.lookup "retry_after" =
      some (JValue.nat 60) :=
  C4_rate_limited_429 "v1" "HTTP Error 429: Too Many Requests" none _
    ⟨"429", by decide, by decide⟩ rfl

/-- C5: the tail of the route's classification chain, in its fixed order:
a `Timeout` or `ConnectionError` gives 503 `NETWORK_ERROR` with
`is_retryable = true` and `retry_after = 15`; any other unclassified
exception with a transient indicator in its lowercased message gives 503
`TRANSIENT_ERROR` with `retry_after = 30`; every remaining unclassified
exception gives 500 `INTERNAL_ERROR` with `is_retryable = true` (and no
`retry_after`). The transient-indicator test is applied before the
internal-error fallback, so the first matching rule wins. -/
theorem C5_transient_classification_chain (vid msg : String) (q : Option String)
    (provider : List String → Nat → Except PyExc (List Segment)) :
    (provider (parseLanguages q) 0 = Except.error (.Timeout msg) →
      (get_transcript vid q provider).response.status = 503 ∧
      (get_transcript vid q provider).response.body.lookup "error_code" =
        some (JValue.str "NETWORK_ERROR") ∧
      (get_transcript vid q provider).response.body.lookup "is_retryable" =
        some (JValue.bool true) ∧
      (get_transcript vid q provider).response.body.lookup "retry_after" =
        some (JValue.nat 15)) ∧
    (provider (parseLanguages q) 0 = Except.error (.ConnectionError msg) →
      (get_transcript vid q provider).response.status = 503 ∧
      (get_transcript vid q provider).response.body.lookup "error_code" =
        some (JValue.str "NETWORK_ERROR") ∧
      (get_transcript vid q provider).response.body.lookup "is_retryable" =
        some (JValue.bool true) ∧
      (get_transcript vid q provider).response.body.lookup "retry_after" =
        some (JValue.nat 15)) ∧
    (provider (parseLanguages q) 0 = Except.error (.otherExc msg) →
      (is_transient_error (.otherExc msg) = true →
        (get_transcript vid q provider).response.status = 503 ∧
        (get_transcript vid q provider).response.body.lookup "error_code" =
          some (JValue.str "TRANSIENT_ERROR") ∧
        (get_transcript vid q provider).response.body.lookup "is_retryable" =
          some (JValue.bool true) ∧
        (get_transcript vid q provider).response.body.lookup "retry_after" =
          some (JValue.nat 30)) ∧
      (is_transient_error (.otherExc msg) = false →
        (get_transcript vid q provider).response.status = 500 ∧
        (get_transcript vid q provider).response.body.lookup "error_code" =
          some (JValue.str "INTERNAL_ERROR") ∧
        (get_transcript vid q provider).response.body.lookup "is_retryable" =
          some (JValue.bool true) ∧
        (get_transcript vid q provider).response.body.lookup "retry_after" =
          none)) := by
  refine ⟨fun h => ?_, fun h => ?_, fun h => ⟨fun ht => ?_, fun ht => ?_⟩⟩
  · refine ⟨?_, ?_, ?_, ?_⟩ <;>
      simp [get_transcript, h, get_transcript_handle_error, toHttpResponse,
        create_error_response, List.lookup]
  · refine ⟨?_, ?_, ?_, ?_⟩ <;>
      simp [get_transcript, h, get_transcript_handle_error, toHttpResponse,
        create_error_response, List.lookup]
  · refine ⟨?_, ?_, ?_, ?_⟩ <;>
      simp [get_transcript, h, get_transcript_handle_error, ht, toHttpResponse,
        create_error_response, List.lookup]
  · refine ⟨?_, ?_, ?_, ?_⟩ <;>
      simp [get_transcript, h, get_transcript_handle_error, ht, toHttpResponse,
        create_error_response, List.lookup]

/-- C5 witness: the three rules exercised at concrete exceptions — a
timeout, a message-matched transient error, and an unclassified error. -/
theorem C5_transient_classification_chain_witness :
    ((get_transcript "v1" none (fun _ _ =>
        Except.error (.Timeout "timed out"))).response.status = 503 ∧
     (get_transcript "v1" none (fun _ _ =>
        Except.error (.Timeout "timed out"))).response.body.lookup "error_code" =
       some (JValue.str "NETWORK_ERROR") ∧
     (get_transcript "v1" none (fun _ _ =>
        Except.error (.Timeout "timed out"))).response.body.lookup "is_retryable" =
       some (JValue.bool true) ∧
     (get_transcript "v1" none (fun _ _ =>
        Except.error (.Timeout "timed out"))).response.body.lookup "retry_after" =
       some (JValue.nat 15)) ∧
    ((get_transcript "v1" none (fun _ _ =>
        Except.error (.otherExc "Service Unavailable"))).response.status = 503 ∧
     (get_transcript "v1" none (fun _ _ =>
        Except.error (.otherExc "Service Unavailable"))).response.body.lookup "error_code" =
       some (JValue.str "TRANSIENT_ERROR") ∧
     (get_transcript "v1" none (fun _ _ =>
        Except.error (.otherExc "Service Unavailable"))).response.body.lookup "is_retryable" =
       some (JValue.bool true) ∧
     (get_transcript "v1" none (fun _ _ =>
        Except.error (.otherExc "Service Unavailable"))).response.body.lookup "retry_after" =
       some (JValue.nat 30)) ∧
    ((get_transcript "v1" none (fun _ _ =>
        Except.error (.otherExc "boom"))).response.status = 500 ∧
     (get_transcript "v1" none (fun _ _ =>
        Except.error (.otherExc "boom"))).response.body.lookup "error_code" =
       some (JValue.str "INTERNAL_ERROR") ∧
     (get_transcript "v1" none (fun _ _ =>
        Except.error (.otherExc "boom"))).response.body.lookup "is_retryable" =
       some (JValue.bool true) ∧
     (get_transcript "v1" none (fun _ _ =>
        Except.error (.otherExc "boom"))).response.body.lookup "retry_after" = none) :=
  ⟨(C5_transient_classification_chain "v1" "timed out" none _).1 rfl,
   ((C5_transient_classification_chain "v1" "Service Unavailable" none _).2.2 rfl).1
     (by decide),
   ((C5_transient_classification_chain "v1" "boom" none _).2.2 rfl).2
     (by decide)⟩

end TranscriptService

namespace TranscriptService

/-- C6: in `get_transcript_with_retry` (default `max_retries = 3`), the
backoff slept before retry attempt `k` is `2 ^ k + jitter k` with the jitter
drawn from `[0, 1]`. First scenario: a retryable failure on the first
attempt followed by success on the second gives total slept time
`2 ^ 1 + jitter 1`, which lies in `[2 ^ 1, 2 ^ 1 + 1]`. Second scenario: a
failure persisting over all three attempts accumulates
`(2 ^ 1 + jitter 1) + (2 ^ 2 + jitter 2)`, exhibiting the `2 ^ k` law for
both retry attempts `k = 1, 2`. -/
theorem C6_exponential_backoff_with_jitter (e : PyExc) (segs : List Segment)
    (p1 p2 : Nat → Except PyExc (List Segment)) (jitter : Nat → Rat)
    (hj : ∀ k, 0 ≤ jitter k ∧ jitter k ≤ 1)
    (hretry : nonRetryable e = false)
    (h10 : p1 0 = Except.error e) (h11 : p1 1 = Except.ok segs)
    (h2 : ∀ n, p2 n = Except.error e) :
    (∃ r : RetryResult, get_transcript_with_retry p1 jitter 3 = some r ∧
      r.outcome = Except.ok segs ∧ r.attempts = 2 ∧
      r.total_sleep = 2 ^ 1 + jitter 1 ∧
      (2 : Rat) ^ 1 ≤ r.total_sleep ∧ r.total_sleep ≤ 2 ^ 1 + 1) ∧
    (∃ r : RetryResult, get_transcript_with_retry p2 jitter 3 = some r ∧
      r.outcome = Except.error e ∧ r.attempts = 3 ∧
      r.total_sleep = (2 ^ 1 + jitter 1) + (2 ^ 2 + jitter 2)) := by
  obtain ⟨hj1l, hj1u⟩ := hj 1
  constructor
  · refine ⟨⟨Except.ok segs, 2, 2 ^ 1 + jitter 1⟩, ?_, rfl, rfl, rfl, ?_, ?_⟩
    · simp [get_transcript_with_retry, retry_go, h10, h11, hretry]
    · simp only [pow_one]
      linarith
    · simp only [pow_one]
      linarith
  · refine ⟨⟨Except.error e, 3, (2 ^ 1 + jitter 1) + (2 ^ 2 + jitter 2)⟩, ?_, rfl, rfl, rfl⟩
    simp [get_transcript_with_retry, retry_go, h2, hretry]

/-- C6 witness: the theorem at a concrete `Timeout` failure with jitter
constantly `1/2`. -/
theorem C6_exponential_backoff_with_jitter_witness :
    (∃ r : RetryResult,
      get_transcript_with_retry
        (fun n => if n = 0 then Except.error (.Timeout "t") else Except.ok [])
        (fun _ => (1 : Rat) / 2) 3 = some r ∧
      r.outcome = Except.ok [] ∧ r.attempts = 2 ∧
      r.total_sleep = 2 ^ 1 + (1 : Rat) / 2 ∧
      (2 : Rat) ^ 1 ≤ r.total_sleep ∧ r.total_sleep ≤ 2 ^ 1 + 1) ∧
    (∃ r : RetryResult,
      get_transcript_with_retry (fun _ => Except.error (.Timeout "t"))
        (fun _ => (1 : Rat) / 2) 3 = some r ∧
      r.outcome = Except.error (.Timeout "t") ∧ r.attempts = 3 ∧
      r.total_sleep = (2 ^ 1 + (1 : Rat) / 2) + (2 ^ 2 + (1 : Rat) / 2)) :=
  C6_exponential_backoff_with_jitter (.Timeout "t") []
    (fun n => if n = 0 then Except.error (.Timeout "t") else Except.ok [])
    (fun _ => Except.error (.Timeout "t")) (fun _ => (1 : Rat) / 2)
    (fun _ => by norm_num) rfl rfl rfl (fun _ => rfl)

/-- C7: a successful fetch makes the route answer 200 with the body holding
`video_id`, the provider's segment sequence unchanged, and `segment_count`
equal to its length; in particular the spec's three fixed segments come back
as that exact ordered sequence with `segment_count = 3`, and their start
times are chronological. -/
theorem C7_success_roundtrip (vid : String) (q : Option String)
    (segs : List Segment)
    (provider : List String → Nat → Except PyExc (List Segment))
    (hprov : provider (parseLanguages q) 0 = Except.ok segs) :
    (get_transcript vid q provider).response.status = 200 ∧
    (get_transcript vid q provider).response.body =
      [("video_id", JValue.str vid),
       ("transcript", JValue.arr (segs.map segToJValue)),
       ("segment_count", JValue.nat segs.length)] ∧
    (get_transcript "v1" none (fun _ _ => Except.ok demoSegments)).response.body =
      [("video_id", JValue.str "v1"),
       ("transcript", JValue.arr
         [JValue.obj [("text", JValue.str "a"), ("start", JValue.num 0),
                      ("duration", JValue.num 1)],
          JValue.obj [("text", JValue.str "b"), ("start", JValue.num 1),
                      ("duration", JValue.num 1)],
          JValue.obj [("text", JValue.str "c"), ("start", JValue.num 2),
                      ("duration", JValue.num 1)]]),
       ("segment_count", JValue.nat 3)] ∧
    List.Chain' (· ≤ ·) (demoSegments.map Segment.start) := by
  refine ⟨?_, ?_, rfl, ?_⟩
  · simp [get_transcript, hprov]
  · simp [get_transcript, hprov]
  · norm_num [demoSegments]

/-- C7 witness: the theorem at the spec's three fixed segments. -/
theorem C7_success_roundtrip_witness :
    (get_transcript "v1" none (fun _ _ => Except.ok demoSegments)).response.status = 200 ∧
    (get_transcript "v1" none (fun _ _ => Except.ok demoSegments)).response.body =
      [("video_id", JValue.str "v1"),
       ("transcript", JValue.arr (demoSegments.map segToJValue)),
       ("segment_count", JValue.nat demoSegments.length)] ∧
    (get_transcript "v1" none (fun _ _ => Except.ok demoSegments)).response.body =
      [("video_id", JValue.str "v1"),
       ("transcript", JValue.arr
         [JValue.obj [("text", JValue.str "a"), ("start", JValue.num 0),
                      ("duration", JValue.num 1)],
          JValue.obj [("text", JValue.str "b"), ("start", JValue.num 1),
                      ("duration", JValue.num 1)],
          JValue.obj [("text", JValue.str "c"), ("start", JValue.num 2),
                      ("duration", JValue.num 1)]]),
       ("segment_count", JValue.nat 3)] ∧
    List.Chain' (· ≤ ·) (demoSegments.map Segment.start) :=
  C7_success_roundtrip "v1" none demoSegments (fun _ _ => Except.ok demoSegments) rfl

/-- C8: `?languages=en,fr` parses to `["en", "fr"]` in order, and an absent
parameter defaults to `["en"]`; the route uses exactly this parse. -/
theorem C8_languages_parsing (vid : String)
    (provider : List String → Nat → Except PyExc (List Segment)) :
    parseLanguages (some "en,fr") = ["en", "fr"] ∧
    parseLanguages none = ["en"] ∧
    (get_transcript vid (some "en,fr") provider).languages_used = ["en", "fr"] ∧
    (get_transcript vid none provider).languages_used = ["en"] := by
  refine ⟨by decide, by decide, ?_, ?_⟩
  · cases h : provider (parseLanguages (some "en,fr")) 0 <;>
      simp [get_transcript, h] <;> decide
  · cases h : provider (parseLanguages none) 0 <;>
      simp [get_transcript, h] <;> decide

/-- C9: a present-but-empty `languages` parameter parses to `[""]` — one
empty-string language code — not to the `["en"]` default, which applies only
when the parameter is absent. -/
theorem C9_empty_languages_param (vid : String)
    (provider : List String → Nat → Except PyExc (List Segment)) :
    parseLanguages (some "") = [""] ∧
    parseLanguages (some "") ≠ ["en"] ∧
    (get_transcript vid (some "") provider).languages_used = [""] := by
  refine ⟨by decide, by decide, ?_⟩
  cases h : provider (parseLanguages (some "")) 0 <;>
    simp [get_transcript, h] <;> decide

/-- C10: every body built by `create_error_response` has exactly the keys
`error`, `error_code`, `video_id`, plus `is_retryable` and `retry_after`
only when those arguments are supplied; in particular the route's
INTERNAL_ERROR response carries no `retry_after` key at all. -/
theorem C10_error_body_keys (msg code : String) (st : Nat) (vid : Option String)
    (rb : Option Bool) (ra : Option Nat) :
    (create_error_response msg code st vid rb ra).1.map Prod.fst =
      ["error", "error_code", "video_id"] ++
        (match rb with | some _ => ["is_retryable"] | none => []) ++
        (match ra with | some _ => ["retry_after"] | none => []) ∧
    (create_error_response msg code st vid rb none).1.lookup "retry_after" = none ∧
    (create_error_response msg code st vid none ra).1.lookup "is_retryable" = none ∧
    (get_transcript "v1" none
        (fun _ _ => Except.error (.otherExc "boom"))).response.body.lookup
      "retry_after" = none ∧
    (get_transcript "v1" none
        (fun _ _ => Except.error (.otherExc "boom"))).response.body.lookup
      "error_code" = some (JValue.str "INTERNAL_ERROR") := by
  refine ⟨?_, ?_, ?_, ?_, ?_⟩
  · cases rb <;> cases ra <;> cases vid <;> simp [create_error_response]
  · cases rb <;> cases vid <;> simp [create_error_response, List.lookup]
  · cases ra <;> cases vid <;> simp [create_error_response, List.lookup]
  · simp [get_transcript, get_transcript_handle_error, toHttpResponse,
      create_error_response, List.lookup]
  · simp [get_transcript, get_transcript_handle_error, toHttpResponse,
      create_error_response, List.lookup]

end TranscriptService
